import Mathlib

/-!
Verification development for the _devtools repository.

The Python source is shallowly embedded:
  - SQLAlchemy row classes become Lean structures or, for the dynamically
    updated DLC product row, a string-keyed attribute map mirroring a Python
    object's attribute dictionary;
  - machine floats used only as Unix timestamps are modelled as natural
    numbers (integer seconds) with decimal rendering;
  - database uniqueness constraints (primary keys, UniqueConstraint) are
    modelled by an insert operation that rejects a conflicting row and leaves
    the store unchanged, which is how the database enforces them;
  - fallible code returns Except.
-/

/-- Python attribute values as stored on the DLC product row: None, str, int
(also covering the float timestamps, modelled as integer seconds), and JSON
dicts (modelled as flat string maps; only their truthiness and defaults
matter here). -/
inductive Val where
  | vNone : Val
  | vStr : String → Val
  | vInt : Int → Val
  | vDict : List (String × String) → Val
  deriving DecidableEq, Repr

/-- A Python object's attribute state: a total map from attribute name to
value (attributes never assigned read as vNone). -/
def Row : Type := String → Val

/-- Python setattr on the attribute map. -/
def setAttr (r : Row) (k : String) (v : Val) : Row :=
  fun q => if q = k then v else r q

/-- Python truthiness of an attribute value (drives the or-defaults in
DLC.__init__ such as created_at or time.time()). -/
def pyTruthy : Val → Bool
  | Val.vNone => false
  | Val.vStr s => s ≠ ""
  | Val.vInt n => n ≠ 0
  | Val.vDict d => d ≠ []

/-- Lookup of a keyword argument by name (first binding wins, as in a Python
dict built once). -/
def kwLookup (kw : List (String × Val)) (k : String) : Option Val :=
  (kw.find? (fun kv => kv.fst = k)).map Prod.snd

/-- Python expression value-or-now: the source writes
created_at or time.time(), so a missing or falsy argument is replaced by the
current time. -/
def pyOrNow (v : Option Val) (now : Nat) : Val :=
  match v with
  | none => Val.vInt (Int.ofNat now)
  | some w => if pyTruthy w then w else Val.vInt (Int.ofNat now)

/-- Python expression value-or-empty-dict: the source writes
ini_signatures or {} and alike. -/
def pyOrEmptyDict (v : Option Val) : Val :=
  match v with
  | none => Val.vDict []
  | some w => if pyTruthy w then w else Val.vDict []

/-- Column names of the lb_btcusd_products table, in source order
(sqlbase_dlc.py lines 273-355). -/
def lbColumnNames : List String :=
  ["dlc_id", "tmp_cntr_id", "created_at", "updated_at", "status",
   "protocol_version", "chain_hash", "cntr_flags",
   "ini_pubkey_funding", "ini_pubkey_index", "ini_payout_spk",
   "ini_payout_ser_id", "ini_change_spk", "ini_change_ser_id",
   "ini_fund_output_ser_id", "ini_num_funding_inputs", "ini_collateral_sats",
   "ini_signatures",
   "acc_pubkey_funding", "acc_pubkey_index", "acc_payout_spk",
   "acc_payout_ser_id", "acc_change_spk", "acc_change_ser_id",
   "acc_fund_output_ser_id", "acc_num_funding_inputs", "acc_collateral_sats",
   "acc_signatures",
   "orcl_id", "orcl_pubkey", "digit_string_template", "nonces",
   "interval_wildcards", "num_digits",
   "orcl_event_id", "orcl_event_time", "orcl_poll_at", "orcl_final_value",
   "orcl_outcome_time", "orcl_signatures", "orcl_outcome_digits_json",
   "orcl_outcome_url", "orcl_outcome_at",
   "cntr_terms", "feerate_per_vb", "cet_locktime", "refund_locktime",
   "offered_at", "accepted_at", "signed_ini_at", "signed_acc_at",
   "attest_at", "refund_at",
   "product_id", "expiry_offer", "ini_email", "acc_email",
   "ftx_id", "rtx_id", "cet_id", "funding_inputs",
   "broadcast_ftx_at", "broadcast_cet_at", "broadcast_rtx_at",
   "confirmed_cet_at", "confirmed_ftx_at", "confirmed_rtx_at",
   "ini_role", "duration", "interest", "interest_ear", "interest_b",
   "interest_b_ear"]

/-- Columns whose DLC.__init__ assignment is value-or-empty-dict. -/
def jsonColumnNames : List String :=
  ["ini_signatures", "acc_signatures", "orcl_outcome_digits_json",
   "cntr_terms", "funding_inputs"]

/-- Attribute names for which hasattr(self, name) is true on a
LendBorrowBTCUSD_Product instance: every column name (class-level Column
attributes), final_interval (a plain instance attribute set in
DLC.__init__), and the methods defined on the class. -/
def lbAttrNames : List String :=
  lbColumnNames ++ ["final_interval", "generate_id_hash", "return_as_dict",
                    "update", "construct"]

/-- The attribute state produced by the DLC -> DLCP ->
LendBorrowBTCUSD_Product constructor chain given the effective keyword
arguments kw and the current time now. dlc_id is unconditionally set to the
tmp_cntr_id argument by LendBorrowBTCUSD_Product.__init__
(kwargs["dlc_id"] = tmp_cntr_id), created_at and updated_at follow the
value-or-now defaults, status defaults to "created", protocol_version to 1,
chain_hash to the genesis hash, cntr_flags to 0, the JSON columns to an
empty dict, and every other attribute to the passed value or None. -/
def lbFromKwargs (kw : List (String × Val)) (now : Nat) : Row :=
  fun key =>
    if key = "dlc_id" ∨ key = "tmp_cntr_id" then
      (kwLookup kw "tmp_cntr_id").getD Val.vNone
    else if key = "created_at" then pyOrNow (kwLookup kw "created_at") now
    else if key = "updated_at" then pyOrNow (kwLookup kw "updated_at") now
    else if key = "status" then (kwLookup kw "status").getD (Val.vStr "created")
    else if key = "protocol_version" then
      (kwLookup kw "protocol_version").getD (Val.vInt 1)
    else if key = "chain_hash" then
      (kwLookup kw "chain_hash").getD
        (Val.vStr "000000000019d6689c085ae165831e934ff763ae46a2a6c172b3f1b60a8ce26f")
    else if key = "cntr_flags" then (kwLookup kw "cntr_flags").getD (Val.vInt 0)
    else if key ∈ jsonColumnNames then pyOrEmptyDict (kwLookup kw key)
    else if key ∈ lbColumnNames ∨ key = "final_interval" then
      (kwLookup kw key).getD Val.vNone
    else Val.vNone

/-- LendBorrowBTCUSD_Product.__init__ called with the mandatory positional
arguments and an optional created_at keyword: DLC.__init__ raises ValueError
when tmp_cntr_id is falsy, otherwise the attribute state is built with
dlc_id forced to tmp_cntr_id. -/
def lbInit (tmp product : String) (createdAt : Option Nat) (now : Nat) :
    Except String Row :=
  if tmp = "" then
    Except.error "tmp_cntr_id is required and cannot be empty."
  else
    Except.ok (lbFromKwargs
      ([("tmp_cntr_id", Val.vStr tmp), ("dlc_id", Val.vStr tmp),
        ("product_id", Val.vStr product)] ++
       (match createdAt with
        | some t => [("created_at", Val.vInt (Int.ofNat t))]
        | none => [])) now)

/-- LendBorrowBTCUSD_Product.construct: filters the input dict to valid
column names, requires a truthy tmp_cntr_id, forces dlc_id to tmp_cntr_id,
and calls the constructor (which needs product_id). -/
def lbFiltered (d_in : List (String × Val)) : List (String × Val) :=
  d_in.filter (fun kv => decide (kv.fst ∈ lbColumnNames))

/-- LendBorrowBTCUSD_Product.construct, continued: dispatch on the filtered
dict. -/
def lbConstruct (d_in : List (String × Val)) (now : Nat) :
    Except String Row :=
  match kwLookup (lbFiltered d_in) "tmp_cntr_id" with
  | none => Except.error "Missing required field: tmp_cntr_id"
  | some v =>
    if pyTruthy v then
      match kwLookup (lbFiltered d_in) "product_id" with
      | none => Except.error "TypeError: missing required argument product_id"
      | some _ => Except.ok (lbFromKwargs (lbFiltered d_in) now)
    else Except.error "Missing required field: tmp_cntr_id"

/-- LendBorrowBTCUSD_Product.update: for each keyword argument, setattr if
hasattr (unknown names are silently skipped), then unconditionally refresh
updated_at to the current time. -/
def lbUpdate (r : Row) (kwargs : List (String × Val)) (now : Nat) : Row :=
  setAttr
    (kwargs.foldl
      (fun acc kv =>
        if kv.fst ∈ lbAttrNames then setAttr acc kv.fst kv.snd else acc) r)
    "updated_at" (Val.vInt (Int.ofNat now))

/-- Helper extracting the row from a successful constructor call (used to
state closed counterexamples). -/
def rowOrEmpty (e : Except String Row) : Row :=
  match e with
  | Except.ok r => r
  | Except.error _ => fun _ => Val.vNone

/-- Whether a constructor call succeeded. -/
def exceptOk (e : Except String Row) : Bool :=
  match e with
  | Except.ok _ => true
  | Except.error _ => false

/-! ### SHA-256 (hashlib.sha256, as used by generate_id_hash) -/

/-- Truncation to a 32-bit word. -/
def w32 (n : Nat) : Nat := n % 4294967296

/-- 32-bit modular addition. -/
def wadd (a b : Nat) : Nat := w32 (a + b)

/-- 32-bit bitwise complement. -/
def wnot (a : Nat) : Nat := a ^^^ 4294967295

/-- Right rotation of a 32-bit word. -/
def rotr (n x : Nat) : Nat := w32 ((x >>> n) ||| (x <<< (32 - n)))

/-- SHA-256 big Sigma 0. -/
def bigSigma0 (x : Nat) : Nat := (rotr 2 x) ^^^ (rotr 13 x) ^^^ (rotr 22 x)

/-- SHA-256 big Sigma 1. -/
def bigSigma1 (x : Nat) : Nat := (rotr 6 x) ^^^ (rotr 11 x) ^^^ (rotr 25 x)

/-- SHA-256 small sigma 0. -/
def smallSigma0 (x : Nat) : Nat := (rotr 7 x) ^^^ (rotr 18 x) ^^^ (x >>> 3)

/-- SHA-256 small sigma 1. -/
def smallSigma1 (x : Nat) : Nat := (rotr 17 x) ^^^ (rotr 19 x) ^^^ (x >>> 10)

/-- SHA-256 choice function. -/
def chFun (x y z : Nat) : Nat := (x &&& y) ^^^ ((wnot x) &&& z)

/-- SHA-256 majority function. -/
def majFun (x y z : Nat) : Nat := (x &&& y) ^^^ (x &&& z) ^^^ (y &&& z)

/-- SHA-256 round constants. -/
def shaK : List Nat :=
  [1116352408, 1899447441, 3049323471, 3921009573, 961987163,
   1508970993, 2453635748, 2870763221, 3624381080, 310598401,
   607225278, 1426881987, 1925078388, 2162078206, 2614888103,
   3248222580, 3835390401, 4022224774, 264347078, 604807628,
   770255983, 1249150122, 1555081692, 1996064986, 2554220882,
   2821834349, 2952996808, 3210313671, 3336571891, 3584528711,
   113926993, 338241895, 666307205, 773529912, 1294757372,
   1396182291, 1695183700, 1986661051, 2177026350, 2456956037,
   2730485921, 2820302411, 3259730800, 3345764771, 3516065817,
   3600352804, 4094571909, 275423344, 430227734, 506948616,
   659060556, 883997877, 958139571, 1322822218, 1537002063,
   1747873779, 1955562222, 2024104815, 2227730452, 2361852424,
   2428436474, 2756734187, 3204031479, 3329325298]

/-- SHA-256 initial hash state. -/
def shaH0 : List Nat :=
  [1779033703, 3144134277, 1013904242, 2773480762, 1359893119,
   2600822924, 528734635, 1541459225]

/-- Big-endian 4-byte encoding of a 32-bit word. -/
def beBytes4 (w : Nat) : List Nat :=
  [(w >>> 24) &&& 255, (w >>> 16) &&& 255, (w >>> 8) &&& 255, w &&& 255]

/-- Big-endian 8-byte encoding of a 64-bit length. -/
def beBytes8 (n : Nat) : List Nat := beBytes4 (w32 (n >>> 32)) ++ beBytes4 (w32 n)

/-- Big-endian word from a list of bytes. -/
def bytesToWord (l : List Nat) : Nat := l.foldl (fun acc b => acc * 256 + b) 0

/-- Splits a list into chunks of n elements (fuel-driven, called with fuel at
least the list length). -/
def chunkList (n : Nat) : Nat → List Nat → List (List Nat)
  | _, [] => []
  | 0, _ => []
  | fuel + 1, l => l.take n :: chunkList n fuel (l.drop n)

/-- SHA-256 padding: append 0x80, zero fill to 56 mod 64, then the 64-bit
big-endian bit length. -/
def shaPad (msg : List Nat) : List Nat :=
  msg ++ [128] ++ List.replicate ((120 - ((msg.length + 1) % 64)) % 64) 0 ++
    beBytes8 (8 * msg.length)

/-- One step of the message-schedule extension. -/
def schedStep (w : List Nat) : List Nat :=
  w ++ [wadd
    (wadd (smallSigma1 (w.getD (w.length - 2) 0)) (w.getD (w.length - 7) 0))
    (wadd (smallSigma0 (w.getD (w.length - 15) 0)) (w.getD (w.length - 16) 0))]

/-- Iterated message-schedule extension. -/
def sched : Nat → List Nat → List Nat
  | 0, w => w
  | n + 1, w => sched n (schedStep w)

/-- One SHA-256 compression round on the eight-word working state. -/
def compressStep (st : List Nat) (wk : Nat × Nat) : List Nat :=
  match st with
  | [a, b, c, d, e, f, g, h] =>
    let t1 := wadd h (wadd (bigSigma1 e) (wadd (chFun e f g) (wadd wk.2 wk.1)))
    let t2 := wadd (bigSigma0 a) (majFun a b c)
    [wadd t1 t2, a, b, c, wadd d t1, e, f, g]
  | _ => st

/-- Processes one 64-byte block into the running hash state. -/
def shaBlock (h : List Nat) (block : List Nat) : List Nat :=
  let w0 := (chunkList 4 block.length block).map bytesToWord
  let w := sched 48 w0
  let st := (w.zip shaK).foldl compressStep h
  List.zipWith wadd h st

/-- SHA-256 of a byte list, as 32 bytes. -/
def sha256 (msg : List Nat) : List Nat :=
  let padded := shaPad msg
  let hs := (chunkList 64 padded.length padded).foldl shaBlock shaH0
  hs.foldr (fun w acc => beBytes4 w ++ acc) []

/-- Lowercase hex digit. -/
def hexChar (n : Nat) : Char :=
  if n < 10 then Char.ofNat (48 + n) else Char.ofNat (87 + n)

/-- hashlib hexdigest of SHA-256. -/
def sha256hex (msg : List Nat) : String :=
  String.mk ((sha256 msg).foldr
    (fun b acc => hexChar (b / 16) :: hexChar (b % 16) :: acc) [])

/-- UTF-8 bytes of an ASCII string (contract ids and decimal timestamps are
ASCII, where UTF-8 coincides with the code points). -/
def strBytes (s : String) : List Nat := s.data.map Char.toNat

/-- Python str() rendering of an attribute value as interpolated by the
f-string in generate_id_hash. -/
def pyStr : Val → String
  | Val.vNone => "None"
  | Val.vStr s => s
  | Val.vInt n => toString n
  | Val.vDict _ => "\x7b\x7d"

/-- LendBorrowBTCUSD_Product.generate_id_hash: first 16 hex characters of
the SHA-256 of the concatenation of tmp_cntr_id and created_at (the method
computes the same digest twice, once via the cryptography helper and once
via hashlib, and returns the hashlib one). -/
def generate_id_hash (r : Row) : String :=
  (sha256hex (strBytes (pyStr (r "tmp_cntr_id") ++ pyStr (r "created_at")))).take 16

set_option maxRecDepth 40000

theorem sha256_test_vector :
    sha256hex (strBytes "abc") =
      "ba7816bf8f01cfea414140de5dae2223b00361a396177a9cb410ff61f20015ad" := by
  decide

theorem sha256_empty_vector :
    sha256hex (strBytes "") =
      "e3b0c44298fc1c149afbf4c8996fb92427ae41e4649b934ca495991b7852b855" := by
  decide

/-! ### UTXO (sqlbase_utxo.py) -/

/-- TX-origin certainty for a UTXO. -/
inductive OriginState where
  | local_draft : OriginState
  | mempool : OriginState
  | confirmed : OriginState
  deriving DecidableEq, Repr

/-- A row of the utxos table. Timestamps are integer seconds; value is an
Int because the BigInteger column carries no sign constraint. -/
structure UTXO where
  txid : String
  vout : Nat
  value : Int
  script_pubkey : String
  address : Option String := none
  script_type : Option String := none
  block_height : Option Int := none
  block_time : Option Nat := none
  is_spent : Bool := false
  spend_txid : Option String := none
  origin_state : OriginState := OriginState.confirmed
  origin_txid_local : Option String := none
  reserved_for_dlc_id : Option String := none
  reserved_for_txid_local : Option String := none
  reserved_at : Option Nat := none
  reservation_expires_at : Option Nat := none
  xpub : Option String := none
  derivation_path : Option String := none
  wallet_tag : Option String := none
  deriving DecidableEq, Repr

/-- UTXO.is_soft_reserved: earmarked for a DLC offer. -/
def is_soft_reserved (u : UTXO) : Bool := u.reserved_for_dlc_id.isSome

/-- UTXO.is_hard_reserved: locked into a concrete funding TX draft. -/
def is_hard_reserved (u : UTXO) : Bool := u.reserved_for_txid_local.isSome

/-- UTXO.is_currently_available_for_new_work: not spent and not hard
reserved (the source checks is_spent is False and is_hard_reserved is
False; reservation expiry is not consulted). -/
def is_currently_available_for_new_work (u : UTXO) : Bool :=
  (u.is_spent == false) && (is_hard_reserved u == false)

/-- Stated by the spec (for the refinement comparison of claim C1): a hard
reservation is live when the reserving draft id is set and the stored
expiry is not in the past. -/
def live_hard_reservation_spec (u : UTXO) (now : Nat) : Bool :=
  u.reserved_for_txid_local.isSome &&
    (match u.reservation_expires_at with
     | some e => !(e < now : Bool)
     | none => true)

/-- Stated by the spec (for the refinement comparison of claim C1):
available means not spent and carrying no live hard reservation. -/
def available_spec (u : UTXO) (now : Nat) : Bool :=
  (!u.is_spent) && (!live_hard_reservation_spec u now)

/-- Insert into the utxos table: the composite primary key and the
unique_outpoint constraint reject any row sharing (txid, vout) with a
stored row; the values themselves are otherwise unconstrained (no check
constraint on value). -/
def utxo_insert (store : List UTXO) (u : UTXO) : Except String (List UTXO) :=
  if store.any (fun v => v.txid == u.txid && v.vout == u.vout) then
    Except.error "IntegrityError: unique_outpoint"
  else Except.ok (store ++ [u])

/-- A rejected insert leaves the store unchanged. -/
def utxo_apply (store : List UTXO) (u : UTXO) : List UTXO :=
  match utxo_insert store u with
  | Except.ok s => s
  | Except.error _ => store

/-- The store reached from empty by a sequence of inserts. -/
def utxo_run (ops : List UTXO) : List UTXO := ops.foldl utxo_apply []

/-- Two rows with distinct outpoints. -/
def outpointDistinct (a b : UTXO) : Prop := ¬ (a.txid = b.txid ∧ a.vout = b.vout)

/-! ### Transaction and Signature (sqlbase_transaction.py) -/

/-- A row of the signatures table. -/
structure SigRow where
  id : String
  transaction_id : String
  signer : String
  signature : String
  deriving DecidableEq, Repr

/-- Insert into the signatures table: the primary key rejects a duplicate
id, the unique_transaction_signer constraint rejects a second row with the
same (transaction_id, signer) pair. -/
def sig_insert (store : List SigRow) (s : SigRow) : Except String (List SigRow) :=
  if store.any (fun r => r.id == s.id) then
    Except.error "IntegrityError: primary key"
  else if store.any (fun r =>
      r.transaction_id == s.transaction_id && r.signer == s.signer) then
    Except.error "IntegrityError: unique_transaction_signer"
  else Except.ok (store ++ [s])

/-- A rejected insert leaves the store unchanged. -/
def sig_apply (store : List SigRow) (s : SigRow) : List SigRow :=
  match sig_insert store s with
  | Except.ok st => st
  | Except.error _ => store

/-- The signature store reached from empty by a sequence of submissions. -/
def sig_run (reqs : List SigRow) : List SigRow := reqs.foldl sig_apply []

/-- Two signature rows with distinct (transaction_id, signer) pairs. -/
def sigDistinct (a b : SigRow) : Prop :=
  ¬ (a.transaction_id = b.transaction_id ∧ a.signer = b.signer)

/-- Whether some stored signature row records the given signer against the
given transaction. -/
def has_signer (store : List SigRow) (tx sg : String) : Bool :=
  store.any (fun r => r.transaction_id == tx && r.signer == sg)

/-- Modelled from the spec: the Signing Coordinator's status recomputation
is absent from the repository (the Transaction.status column is a plain
string); following section 4.3 of the spec, after a submission the status
is recomputed from the two required signer identities: zero of them present
gives pending, one gives partially_signed, both give signed. -/
def recompute_status (store : List SigRow) (tx req1 req2 : String) : String :=
  if has_signer store tx req1 && has_signer store tx req2 then "signed"
  else if has_signer store tx req1 || has_signer store tx req2 then
    "partially_signed"
  else "pending"

/-! ### Message handler (message_handler.py)

The synced-request wait loop polls the engine queue until a response with a
matching timestamp arrives or the wall-clock deadline (now + timeout)
passes. Time is discretized: each loop iteration (a queue read, or a
cpu_delay sleep on an empty queue) advances the clock by one tick, and the
fuel argument is the number of ticks in the timeout window, so the loop
performs at most fuel polls. The environment is the sequence of queue
observations: none when the queue is empty at that iteration, some m when a
message m is read (and thereby consumed). -/

/-- A request message arriving over the socket. -/
structure InternalMsg where
  payload : String
  timestamp : Nat
  synced : Bool
  deriving DecidableEq, Repr

/-- A response message handed back to the API. -/
structure ExternalResponseMsg where
  payload : String
  message : String
  timestamp : Nat
  deriving DecidableEq, Repr

/-- The default response prepared before the wait loop: the request's
payload and timestamp with the message "timed out". -/
def timed_out_response (m : InternalMsg) : ExternalResponseMsg :=
  { payload := m.payload, message := "timed out", timestamp := m.timestamp }

/-- The wait loop of handle_synced_message: with no time left the default
is returned; an empty queue observation costs one tick of sleep; a read
message is returned when its timestamp matches the request, otherwise it is
dropped and polling continues. An exhausted observation list means the
queue stays empty for the rest of the window. -/
def sync_wait_loop (reqTs : Nat) (dflt : ExternalResponseMsg) :
    Nat → List (Option ExternalResponseMsg) → ExternalResponseMsg
  | 0, _ => dflt
  | _ + 1, [] => dflt
  | fuel + 1, none :: rest => sync_wait_loop reqTs dflt fuel rest
  | fuel + 1, some m :: rest =>
    if m.timestamp = reqTs then m else sync_wait_loop reqTs dflt fuel rest

/-- MessageHandlerHub.handle_synced_message under the discretized time
model: fuel ticks of timeout budget against the queue observations. -/
def handle_synced_message (req : InternalMsg) (fuel : Nat)
    (polls : List (Option ExternalResponseMsg)) : ExternalResponseMsg :=
  sync_wait_loop req.timestamp (timed_out_response req) fuel polls

/-- The first message read from the queue whose timestamp matches the
request. -/
def first_matching (reqTs : Nat)
    (polls : List (Option ExternalResponseMsg)) : Option ExternalResponseMsg :=
  (polls.filterMap id).find? (fun m => m.timestamp == reqTs)

/-! ### Email sender (email_sender.py)

send_email is embedded over an environment recording the outcomes of its
effectful steps: the two template loads (rendered text and the inferred
is_html flag, or an exception), the existence check on the TXT template,
the EmailPayload validation, and the SMTP send. The pure helper
_html_to_text never raises and its output value is irrelevant to the
claims, so it is carried as an uninterpreted total function in the
environment. -/

/-- Python exception classes raised inside send_email; all of them are
subclasses of Exception. -/
inductive PyExc where
  | fileNotFound (msg : String)
  | valueError (msg : String)
  | validationError (msg : String)
  | smtpAuthenticationError (msg : String)
  | smtpException (msg : String)
  | otherException (msg : String)
  deriving DecidableEq, Repr

/-- Outcomes of the effectful steps of send_email. -/
structure EmailEnv where
  htmlTemplateLoad : Except PyExc (String × Bool)
  txtTemplateLoad : Except PyExc (String × Bool)
  txtTemplateExists : Bool
  payloadValidation : Except PyExc Unit
  smtpSend : Except PyExc Unit
  htmlToText : String → String

/-- The body of send_email inside its outer try (lines 252-322): template
rendering with HTML/TXT fallback (inner try/except blocks catch and log
render failures on the primary paths, but the line-278 fallback render and
the legacy path propagate theirs), the FileNotFoundError raise when neither
template can be loaded, the ValidationError-to-ValueError translation, and
the SMTP send. -/
def send_email_body (use_html has_html_path : Bool) (env : EmailEnv) :
    Except PyExc Unit := do
  let bodies : Option String × Option String ←
    if use_html && has_html_path then do
      let bodyHtml0 : Option String :=
        match env.htmlTemplateLoad with
        | Except.ok (r, _) => some r
        | Except.error _ => none
      let bodyText0 : Option String :=
        if env.txtTemplateExists then
          match env.txtTemplateLoad with
          | Except.ok (r, txtIsHtml) =>
            some (if txtIsHtml then env.htmlToText r else r)
          | Except.error _ => none
        else none
      let bodyText1 : Option String :=
        match bodyText0, bodyHtml0 with
        | none, some h => some (env.htmlToText h)
        | t, _ => t
      match bodyHtml0 with
      | some h => pure (bodyText1, some h)
      | none =>
        if env.txtTemplateExists then
          match env.txtTemplateLoad with
          | Except.ok (r, txtIsHtml) =>
            if txtIsHtml then pure (some (env.htmlToText r), some r)
            else pure (some r, none)
          | Except.error e => Except.error e
        else
          Except.error
            (PyExc.fileNotFound "Neither HTML nor TXT template could be loaded.")
    else
      match env.txtTemplateLoad with
      | Except.ok (r, isHtml) =>
        if isHtml then pure (some (env.htmlToText r), some r)
        else pure (some r, none)
      | Except.error e => Except.error e
  match env.payloadValidation with
  | Except.error (PyExc.validationError _) =>
    Except.error (PyExc.valueError "Email validation failed")
  | Except.error e => Except.error e
  | Except.ok _ =>
    let _msg := bodies
    env.smtpSend

/-- The observable outcome of a call: a normal return (with the error that
was logged, if any) or a propagated exception. -/
inductive CallOutcome where
  | returnedNormally (loggedError : Option PyExc)
  | propagated (e : PyExc)
  deriving DecidableEq, Repr

/-- Whether an outcome is a propagated exception. -/
def is_propagated : CallOutcome → Bool
  | CallOutcome.propagated _ => true
  | CallOutcome.returnedNormally _ => false

/-- EmailSender.send_email: the body runs inside
try/except SMTPAuthenticationError/except SMTPException/except Exception,
each handler logging and returning normally. -/
def send_email (use_html has_html_path : Bool) (env : EmailEnv) : CallOutcome :=
  match send_email_body use_html has_html_path env with
  | Except.ok _ => CallOutcome.returnedNormally none
  | Except.error (PyExc.smtpAuthenticationError m) =>
    CallOutcome.returnedNormally (some (PyExc.smtpAuthenticationError m))
  | Except.error (PyExc.smtpException m) =>
    CallOutcome.returnedNormally (some (PyExc.smtpException m))
  | Except.error e => CallOutcome.returnedNormally (some e)

/-! ### UserAnonym (sqlbase_user_anonym.py) -/

/-- A row of the useranonyms table. -/
structure UserAnonymRow where
  email : String
  psswd_hsh : String
  auth_code : Int
  conf_tkn_hash : Option String
  xpub : String
  used_addr_set : List String
  uuid : String
  balance_onchain : Int
  balance_derived : Int
  timestamp : Nat
  disabled : Bool
  uuid_parent : Option String
  referral_code : String
  par_referral_code : Option String
  referral_first_touch_ts : Option Int
  referral_src_url : Option String
  visitor_id : Option String
  deriving DecidableEq, Repr

/-- The before_update listener _guard_immutable_fields on the old and the
pending new row state: a changed uuid raises when the old uuid was truthy
(non-empty), then a changed uuid_parent raises when the old parent was not
None. -/
def guard_immutable_fields (old updated : UserAnonymRow) :
    Except String Unit :=
  if old.uuid ≠ updated.uuid ∧ old.uuid ≠ "" then
    Except.error "UserAnonym.uuid is immutable and cannot be changed once set."
  else if old.uuid_parent ≠ updated.uuid_parent ∧ old.uuid_parent ≠ none then
    Except.error "UserAnonym.uuid_parent is immutable once set (first-touch)."
  else Except.ok ()

/-- An ORM update flush: the guard runs before the write, so an error from
it aborts the update and the stored row stays the old one. -/
def apply_user_update (old updated : UserAnonymRow) :
    Except String UserAnonymRow :=
  match guard_immutable_fields old updated with
  | Except.error e => Except.error e
  | Except.ok _ => Except.ok updated

/-! ### Claim C1 -/

/-- A UTXO whose hard reservation has expired (expiry 50) but whose
reserved_for_txid_local is still set. -/
def utxoStaleHard : UTXO :=
  { txid := "t1", vout := 0, value := 1000, script_pubkey := "spk",
    reserved_for_txid_local := some "draft1", reserved_at := some 40,
    reservation_expires_at := some 50 }

/-- C1 counterexample: at time 100 the UTXO utxoStaleHard is unspent and
carries no live hard reservation in the spec's sense (its stored expiry 50
is in the past), yet is_currently_available_for_new_work returns false —
the check does not treat the expired hard reservation as absent, refuting
the claimed equivalence. -/
theorem availability_ignores_expiry_cex :
    is_currently_available_for_new_work utxoStaleHard = false ∧
    utxoStaleHard.is_spent = false ∧
    live_hard_reservation_spec utxoStaleHard 100 = false := by
  decide

/-- C1 amended: is_currently_available_for_new_work returns true exactly
when the UTXO is not spent and reserved_for_txid_local is unset; the result
is completely insensitive to reservation_expires_at (an expired hard
reservation still blocks availability until cleared) and to the soft
reservation field. -/
theorem availability_iff_unspent_and_no_hard_reservation :
    ∀ u : UTXO,
      (is_currently_available_for_new_work u = true ↔
        u.is_spent = false ∧ u.reserved_for_txid_local = none) ∧
      (∀ e, is_currently_available_for_new_work
          { u with reservation_expires_at := e } =
        is_currently_available_for_new_work u) ∧
      (∀ d, is_currently_available_for_new_work
          { u with reserved_for_dlc_id := d } =
        is_currently_available_for_new_work u) := by
  intro u
  refine ⟨?_, fun e => rfl, fun d => rfl⟩
  cases hs : u.is_spent <;>
    cases hr : u.reserved_for_txid_local <;>
      simp [is_currently_available_for_new_work, is_hard_reserved, hs, hr]

/-- C1 witness: the amended equivalence evaluated on the concrete stale
UTXO. -/
theorem availability_iff_witness :
    is_currently_available_for_new_work utxoStaleHard = true ↔
      utxoStaleHard.is_spent = false ∧
        utxoStaleHard.reserved_for_txid_local = none :=
  (availability_iff_unspent_and_no_hard_reservation utxoStaleHard).1

/-! ### Claim C6 -/

/-- Inserting never breaks pairwise-distinct outpoints: a conflicting row
is rejected and the store kept, an accepted row clashes with no stored
row. -/
theorem utxo_apply_pairwise :
    ∀ (store : List UTXO) (u : UTXO), store.Pairwise outpointDistinct →
      (utxo_apply store u).Pairwise outpointDistinct := by
  intro store u h
  unfold utxo_apply utxo_insert
  cases hany : store.any (fun v => v.txid == u.txid && v.vout == u.vout) with
  | true => simpa [hany] using h
  | false =>
    simp only [hany, Bool.false_eq_true, if_false]
    rw [List.pairwise_append]
    refine ⟨h, List.pairwise_singleton _ _, ?_⟩
    intro a ha b hb
    rw [List.mem_singleton] at hb
    subst hb
    intro hcl
    rw [List.any_eq_false] at hany
    exact hany a ha (by simp [hcl.1, hcl.2])

/-- Folding inserts preserves pairwise-distinct outpoints. -/
theorem utxo_foldl_pairwise :
    ∀ (ops : List UTXO) (store : List UTXO),
      store.Pairwise outpointDistinct →
      (ops.foldl utxo_apply store).Pairwise outpointDistinct := by
  intro ops
  induction ops with
  | nil => intro store h; exact h
  | cons o t ih =>
    intro store h
    exact ih _ (utxo_apply_pairwise store o h)

/-- C6 amended: after any sequence of inserts starting from an empty table,
no two stored UTXO rows share the same (txid, vout) outpoint — the
unique_outpoint constraint and composite primary key enforce this. (The
value ≥ 0 half of the original claim is refuted by the counterexample: the
schema places no sign constraint on value.) -/
theorem utxo_store_outpoints_unique :
    ∀ ops : List UTXO, (utxo_run ops).Pairwise outpointDistinct := by
  intro ops
  exact utxo_foldl_pairwise ops [] (List.Pairwise.nil)

/-- A UTXO row with negative value. -/
def utxoNeg : UTXO := { txid := "a", vout := 0, value := -1, script_pubkey := "s" }

/-- C6 counterexample: a row with value = -1 is accepted into the empty
store, so the stored rows do not all satisfy value ≥ 0. -/
theorem utxo_negative_value_cex :
    utxo_run [utxoNeg] = [utxoNeg] ∧ utxoNeg.value < 0 := by
  decide

/-! ### Claim C5 -/

/-- Inserting never breaks pairwise-distinct (transaction_id, signer)
pairs. -/
theorem sig_apply_pairwise :
    ∀ (store : List SigRow) (s : SigRow), store.Pairwise sigDistinct →
      (sig_apply store s).Pairwise sigDistinct := by
  intro store s h
  unfold sig_apply sig_insert
  cases hid : store.any (fun r => r.id == s.id) with
  | true => simpa [hid] using h
  | false =>
    cases hany : store.any
        (fun r => r.transaction_id == s.transaction_id && r.signer == s.signer) with
    | true => simpa [hid, hany] using h
    | false =>
      simp only [hid, hany, Bool.false_eq_true, if_false]
      rw [List.pairwise_append]
      refine ⟨h, List.pairwise_singleton _ _, ?_⟩
      intro a ha b hb
      rw [List.mem_singleton] at hb
      subst hb
      intro hcl
      rw [List.any_eq_false] at hany
      exact hany a ha (by simp [hcl.1, hcl.2])

/-- Folding submissions preserves pairwise-distinct pairs. -/
theorem sig_foldl_pairwise :
    ∀ (reqs : List SigRow) (store : List SigRow),
      store.Pairwise sigDistinct →
      (reqs.foldl sig_apply store).Pairwise sigDistinct := by
  intro reqs
  induction reqs with
  | nil => intro store h; exact h
  | cons r t ih =>
    intro store h
    exact ih _ (sig_apply_pairwise store r h)

/-- In a pairwise-distinct store, at most one row matches a fixed
(transaction_id, signer) pair. -/
theorem filter_pair_length_le_one :
    ∀ (l : List SigRow), l.Pairwise sigDistinct → ∀ tx sg : String,
      (l.filter (fun r => r.transaction_id == tx && r.signer == sg)).length ≤ 1 := by
  intro l
  induction l with
  | nil => intro _ tx sg; simp
  | cons x t ih =>
    intro h tx sg
    have ht := (List.pairwise_cons.mp h).2
    by_cases hpx : (x.transaction_id == tx && x.signer == sg) = true
    · have hnil :
          t.filter (fun r => r.transaction_id == tx && r.signer == sg) = [] := by
        rw [List.filter_eq_nil_iff]
        intro y hy hpy
        have h1 : x.transaction_id = tx ∧ x.signer = sg := by
          simpa using hpx
        have h2 : y.transaction_id = tx ∧ y.signer = sg := by
          simpa using hpy
        exact (List.rel_of_pairwise_cons h hy)
          ⟨h1.1.trans h2.1.symm, h1.2.trans h2.2.symm⟩
      simp [List.filter, hpx, hnil]
    · have hpx2 : (x.transaction_id == tx && x.signer == sg) = false := by
        simpa using hpx
      simpa [List.filter, hpx2] using ih ht tx sg

/-- C5: after any sequence of signature submissions starting from an empty
table, at most one Signature row exists per (transaction_id, signer) pair —
the unique_transaction_signer constraint rejects the second submission for
the same signer on the same transaction, so two stored rows can never
result. -/
theorem at_most_one_signature_per_signer_per_transaction :
    ∀ (reqs : List SigRow) (tx sg : String),
      ((sig_run reqs).filter
        (fun r => r.transaction_id == tx && r.signer == sg)).length ≤ 1 := by
  intro reqs tx sg
  exact filter_pair_length_le_one (sig_run reqs)
    (sig_foldl_pairwise reqs [] List.Pairwise.nil) tx sg

/-! ### Claim C2 -/

/-- Unfolding of has_signer into a stored row. -/
theorem has_signer_mem :
    ∀ (store : List SigRow) (tx sg : String), has_signer store tx sg = true →
      ∃ r ∈ store, r.transaction_id = tx ∧ r.signer = sg := by
  intro store tx sg h
  unfold has_signer at h
  rw [List.any_eq_true] at h
  obtain ⟨r, hr, hp⟩ := h
  refine ⟨r, hr, ?_⟩
  simpa using hp

/-- When every row of the transaction is signed by one of the two required
identities, any recorded signer is one of them. -/
theorem signer_among_required :
    ∀ (store : List SigRow) (tx req1 req2 : String),
      (∀ r ∈ store, r.transaction_id = tx → r.signer = req1 ∨ r.signer = req2) →
      ∀ s : String, has_signer store tx s = true → s = req1 ∨ s = req2 := by
  intro store tx req1 req2 hsub s hs
  obtain ⟨r, hr, htx, hsg⟩ := has_signer_mem store tx s hs
  rcases hsub r hr htx with h | h
  · left; rw [← hsg, h]
  · right; rw [← hsg, h]

/-- C2: the recomputed transaction status (modelled from the spec, since
the Signing Coordinator is absent from the repository) is signed exactly
when two distinct signer identities have Signature rows recorded against
the transaction, assuming the two required identities are distinct and all
recorded rows come from them. -/
theorem transaction_signed_iff_two_distinct_signers :
    ∀ (store : List SigRow) (tx req1 req2 : String), req1 ≠ req2 →
      (∀ r ∈ store, r.transaction_id = tx → r.signer = req1 ∨ r.signer = req2) →
      (recompute_status store tx req1 req2 = "signed" ↔
        ∃ s1 s2 : String, s1 ≠ s2 ∧
          has_signer store tx s1 = true ∧ has_signer store tx s2 = true ∧
          ∀ s : String, has_signer store tx s = true → s = s1 ∨ s = s2) := by
  intro store tx req1 req2 hne hsub
  unfold recompute_status
  cases h1 : has_signer store tx req1 <;> cases h2 : has_signer store tx req2
  · simp only [h1, h2, Bool.and_self, Bool.or_self, Bool.false_eq_true,
      if_false]
    constructor
    · intro hcontra; exact absurd hcontra (by decide)
    · rintro ⟨s1, s2, hs12, hh1, hh2, -⟩
      rcases signer_among_required store tx req1 req2 hsub s1 hh1 with e1 | e1
      · rw [e1] at hh1; simp [hh1] at h1
      · rw [e1] at hh1; simp [hh1] at h2
  · simp only [h1, h2, Bool.false_and, Bool.false_or, Bool.false_eq_true,
      if_false, if_true]
    constructor
    · intro hcontra; exact absurd hcontra (by decide)
    · rintro ⟨s1, s2, hs12, hh1, hh2, -⟩
      rcases signer_among_required store tx req1 req2 hsub s1 hh1 with e1 | e1 <;>
        rcases signer_among_required store tx req1 req2 hsub s2 hh2 with e2 | e2
      · exact absurd (e1.trans e2.symm) hs12
      · rw [e1] at hh1; simp [hh1] at h1
      · rw [e2] at hh2; simp [hh2] at h1
      · exact absurd (e1.trans e2.symm) hs12
  · simp only [h1, h2, Bool.and_false, Bool.or_false, Bool.false_eq_true,
      if_false, if_true]
    constructor
    · intro hcontra; exact absurd hcontra (by decide)
    · rintro ⟨s1, s2, hs12, hh1, hh2, -⟩
      rcases signer_among_required store tx req1 req2 hsub s1 hh1 with e1 | e1 <;>
        rcases signer_among_required store tx req1 req2 hsub s2 hh2 with e2 | e2
      · exact absurd (e1.trans e2.symm) hs12
      · rw [e2] at hh2; simp [hh2] at h2
      · rw [e1] at hh1; simp [hh1] at h2
      · exact absurd (e1.trans e2.symm) hs12
  · simp only [h1, h2, Bool.and_self, if_true]
    constructor
    · intro _
      exact ⟨req1, req2, hne, h1, h2, signer_among_required store tx req1 req2 hsub⟩
    · intro _; trivial

/-- The two-signature store used to witness claim C2. -/
def sigStoreBoth : List SigRow :=
  [{ id := "i1", transaction_id := "t1", signer := "app", signature := "sigA" },
   { id := "i2", transaction_id := "t1", signer := "backend", signature := "sigB" }]

/-- C2 witness: the equivalence evaluated on a store holding one accepted
signature from each required identity. -/
theorem transaction_signed_iff_witness :
    recompute_status sigStoreBoth "t1" "app" "backend" = "signed" ↔
      ∃ s1 s2 : String, s1 ≠ s2 ∧
        has_signer sigStoreBoth "t1" s1 = true ∧
        has_signer sigStoreBoth "t1" s2 = true ∧
        ∀ s : String, has_signer sigStoreBoth "t1" s = true → s = s1 ∨ s = s2 :=
  transaction_signed_iff_two_distinct_signers sigStoreBoth "t1" "app" "backend"
    (by decide) (by decide)

/-! ### Claim C7 -/

/-- The wait loop returns the first matching engine response among the
polls inside the timeout window, or the default when none matches. -/
theorem sync_loop_first_match :
    ∀ (ts : Nat) (dflt : ExternalResponseMsg) (fuel : Nat)
      (polls : List (Option ExternalResponseMsg)),
      sync_wait_loop ts dflt fuel polls =
        (match first_matching ts (polls.take fuel) with
         | some m => m
         | none => dflt) := by
  intro ts dflt fuel
  induction fuel with
  | zero => intro polls; simp [sync_wait_loop, first_matching]
  | succ n ih =>
    intro polls
    cases polls with
    | nil => simp [sync_wait_loop, first_matching]
    | cons p rest =>
      cases p with
      | none =>
        simpa [sync_wait_loop, first_matching] using ih rest
      | some m =>
        cases hm : (m.timestamp == ts) with
        | true =>
          have hm2 : m.timestamp = ts := by simpa using hm
          simp [sync_wait_loop, hm, hm2, first_matching, List.find?]
        | false =>
          have hm2 : ¬ m.timestamp = ts := by simpa using hm
          simpa [sync_wait_loop, hm, hm2, first_matching, List.find?] using ih rest

/-- C7: handle_synced_message always returns, and within the timeout
window: its result is the first engine response whose timestamp equals the
request's timestamp among the at most fuel polls the window allows, or
else the default response carrying the message timed out together with the
request's payload and timestamp; observations beyond the window are never
consulted, so the call cannot wait indefinitely. -/
theorem handle_synced_message_first_match_or_timeout :
    ∀ (req : InternalMsg) (fuel : Nat)
      (polls : List (Option ExternalResponseMsg)),
      handle_synced_message req fuel polls =
        (match first_matching req.timestamp (polls.take fuel) with
         | some m => m
         | none =>
           { payload := req.payload, message := "timed out",
             timestamp := req.timestamp }) ∧
      handle_synced_message req fuel polls =
        handle_synced_message req fuel (polls.take fuel) := by
  intro req fuel polls
  constructor
  · exact sync_loop_first_match req.timestamp (timed_out_response req) fuel polls
  · unfold handle_synced_message
    rw [sync_loop_first_match, sync_loop_first_match, List.take_take]
    simp

/-! ### Claim C8 -/

/-- C8: send_email never propagates an exception: whatever the body does —
template render failures, the FileNotFoundError raise, the ValidationError
to ValueError translation, SMTP authentication failures, other SMTP errors,
or any other exception — the call returns normally, so a notification
failure cannot abort the caller. -/
theorem send_email_never_propagates :
    ∀ (use_html has_html_path : Bool) (env : EmailEnv),
      is_propagated (send_email use_html has_html_path env) = false := by
  intro u h env
  unfold send_email
  cases hb : send_email_body u h env with
  | ok _ => rfl
  | error e => cases e <;> rfl

/-- An environment whose SMTP send raises. -/
def envSmtpFail : EmailEnv :=
  { htmlTemplateLoad := Except.error (PyExc.otherException "x"),
    txtTemplateLoad := Except.ok ("hello", false),
    txtTemplateExists := true,
    payloadValidation := Except.ok (),
    smtpSend := Except.error (PyExc.smtpException "boom"),
    htmlToText := fun s => s }

/-- The catch clauses are exercised: a raising SMTP send is logged and the
call still returns normally. -/
theorem send_email_smtp_failure_logged :
    send_email false false envSmtpFail =
      CallOutcome.returnedNormally (some (PyExc.smtpException "boom")) := by
  rfl

/-! ### Claim C9 -/

/-- C9: once uuid is set (non-empty, as the constructor enforces) an update
changing it is rejected by the before_update guard with the uuid
immutability ValueError, and once uuid_parent is non-null an update
changing it is rejected with a ValueError as well — in both cases the error
is raised before the write, so the stored row stays unchanged. -/
theorem user_anonym_immutable_uuid_and_parent :
    ∀ old updated : UserAnonymRow,
      (old.uuid ≠ "" → updated.uuid ≠ old.uuid →
        apply_user_update old updated = Except.error
          "UserAnonym.uuid is immutable and cannot be changed once set.") ∧
      (∀ p : String, old.uuid_parent = some p → updated.uuid_parent ≠ some p →
        ∃ m : String, apply_user_update old updated = Except.error m) := by
  intro old updated
  constructor
  · intro hset hch
    have hc : old.uuid ≠ updated.uuid ∧ old.uuid ≠ "" :=
      ⟨fun he => hch he.symm, hset⟩
    unfold apply_user_update guard_immutable_fields
    rw [if_pos hc]
  · intro p hp hch
    unfold apply_user_update guard_immutable_fields
    by_cases hu : old.uuid ≠ updated.uuid ∧ old.uuid ≠ ""
    · rw [if_pos hu]
      exact ⟨_, rfl⟩
    · rw [if_neg hu]
      have hc2 : old.uuid_parent ≠ updated.uuid_parent ∧ old.uuid_parent ≠ none := by
        constructor
        · rw [hp]; intro he; exact hch he.symm
        · rw [hp]; intro he; exact Option.noConfusion he
      rw [if_pos hc2]
      exact ⟨_, rfl⟩

/-- A stored user row with uuid u1 and parent p1. -/
def uaOld : UserAnonymRow :=
  { email := "a@b.c", psswd_hsh := "h", auth_code := 0, conf_tkn_hash := none,
    xpub := "", used_addr_set := [], uuid := "u1", balance_onchain := 0,
    balance_derived := 0, timestamp := 0, disabled := false,
    uuid_parent := some "p1", referral_code := "rc1",
    par_referral_code := none, referral_first_touch_ts := none,
    referral_src_url := none, visitor_id := none }

/-- The same row with a changed uuid. -/
def uaChangedUuid : UserAnonymRow := { uaOld with uuid := "u2" }

/-- The same row with a changed uuid_parent. -/
def uaChangedParent : UserAnonymRow := { uaOld with uuid_parent := some "p2" }

/-- C9 witness: the guard rejects a concrete uuid change and a concrete
uuid_parent change. -/
theorem user_anonym_immutable_witness :
    apply_user_update uaOld uaChangedUuid = Except.error
      "UserAnonym.uuid is immutable and cannot be changed once set." ∧
    (∃ m : String, apply_user_update uaOld uaChangedParent = Except.error m) :=
  ⟨(user_anonym_immutable_uuid_and_parent uaOld uaChangedUuid).1
      (by decide) (by decide),
   (user_anonym_immutable_uuid_and_parent uaOld uaChangedParent).2 "p1"
      (by decide) (by decide)⟩

/-! ### Claim C3 -/

/-- A contract row built by the constructor with tmp_cntr_id abc and
created_at 1. -/
def lbRowAbc : Row := rowOrEmpty (lbInit "abc" "dlcp" (some 1) 0)

/-- C3 counterexample: the constructor succeeds and stores dlc_id = abc,
the tmp_cntr_id itself, while the deterministic derivation computed by
generate_id_hash on the same row is the 16-hex-character digest
dbfcfd0d87220f62 — the stored dlc_id does not equal the hash derivation. -/
theorem dlc_id_not_hash_derived_cex :
    exceptOk (lbInit "abc" "dlcp" (some 1) 0) = true ∧
    lbRowAbc "dlc_id" = Val.vStr "abc" ∧
    generate_id_hash lbRowAbc = "dbfcfd0d87220f62" ∧
    lbRowAbc "dlc_id" ≠ Val.vStr (generate_id_hash lbRowAbc) := by
  decide

/-- C3 amended: both the constructor and construct set dlc_id to the
temporary negotiation id tmp_cntr_id itself; generate_id_hash computes the
(tmp_cntr_id, created_at) digest but is never applied to dlc_id. -/
theorem dlc_id_equals_tmp_cntr_id :
    ∀ (tmp product : String) (createdAt : Option Nat) (now : Nat)
      (d : List (String × Val)) (r s : Row),
      (lbInit tmp product createdAt now = Except.ok r →
        r "dlc_id" = Val.vStr tmp ∧ r "dlc_id" = r "tmp_cntr_id") ∧
      (lbConstruct d now = Except.ok s → s "dlc_id" = s "tmp_cntr_id") := by
  intro tmp product createdAt now d r s
  constructor
  · intro h
    unfold lbInit at h
    by_cases ht : tmp = ""
    · rw [if_pos ht] at h
      exact Except.noConfusion h
    · rw [if_neg ht] at h
      injection h with h
      subst h
      constructor
      · simp [lbFromKwargs, kwLookup, List.find?]
      · simp [lbFromKwargs, kwLookup, List.find?]
  · intro h
    unfold lbConstruct at h
    split at h
    · exact Except.noConfusion h
    · split at h
      · split at h
        · exact Except.noConfusion h
        · injection h with h
          subst h
          simp [lbFromKwargs]
      · exact Except.noConfusion h

/-- A construct input dict with a different tmp_cntr_id. -/
def dConW : List (String × Val) :=
  [("tmp_cntr_id", Val.vStr "xyz"), ("product_id", Val.vStr "dlcp")]

/-- C3 witness: the amended statement evaluated on concrete constructor and
construct calls. -/
theorem dlc_id_equals_tmp_witness :
    lbRowAbc "dlc_id" = Val.vStr "abc" ∧
    lbRowAbc "dlc_id" = lbRowAbc "tmp_cntr_id" ∧
    (rowOrEmpty (lbConstruct dConW 0)) "dlc_id" =
      (rowOrEmpty (lbConstruct dConW 0)) "tmp_cntr_id" :=
  ⟨((dlc_id_equals_tmp_cntr_id "abc" "dlcp" (some 1) 0 dConW lbRowAbc
      (rowOrEmpty (lbConstruct dConW 0))).1 rfl).1,
   ((dlc_id_equals_tmp_cntr_id "abc" "dlcp" (some 1) 0 dConW lbRowAbc
      (rowOrEmpty (lbConstruct dConW 0))).1 rfl).2,
   (dlc_id_equals_tmp_cntr_id "abc" "dlcp" (some 1) 0 dConW lbRowAbc
      (rowOrEmpty (lbConstruct dConW 0))).2 rfl⟩

/-! ### Claim C4 -/

/-- A freshly constructed contract row: every phase timestamp is None. -/
def lbFresh : Row := rowOrEmpty (lbInit "abc" "dlcp" none 0)

/-- The fresh row after update(confirmed_ftx_at=7). -/
def lbAfterConf : Row := lbUpdate lbFresh [("confirmed_ftx_at", Val.vInt 7)] 5

/-- The fresh row after update(offered_at=10). -/
def lbOffOnce : Row := lbUpdate lbFresh [("offered_at", Val.vInt 10)] 5

/-- That row after a second update(offered_at=20). -/
def lbOffTwice : Row := lbUpdate lbOffOnce [("offered_at", Val.vInt 20)] 6

/-- C4 counterexample: update sets confirmed_ftx_at on a fresh row while
signed_acc_at is still unset (two phase timestamps out of canonical
order — the spec's own example), and a second update overwrites an already
set offered_at (set more than once). -/
theorem phase_timestamp_guards_absent_cex :
    lbAfterConf "confirmed_ftx_at" = Val.vInt 7 ∧
    lbAfterConf "signed_acc_at" = Val.vNone ∧
    lbOffOnce "offered_at" = Val.vInt 10 ∧
    lbOffTwice "offered_at" = Val.vInt 20 := by
  decide

/-- C4 amended: update applies any recognized keyword unconditionally — on
any row whose signed_acc_at is unset, a single update call sets
confirmed_ftx_at (to any value, any number of times) while signed_acc_at
stays unset; no once-only or canonical-order guard exists in the class. -/
theorem update_sets_phase_timestamps_unconditionally :
    ∀ (r : Row) (v : Val) (now : Nat), r "signed_acc_at" = Val.vNone →
      (lbUpdate r [("confirmed_ftx_at", v)] now) "confirmed_ftx_at" = v ∧
      (lbUpdate r [("confirmed_ftx_at", v)] now) "signed_acc_at" = Val.vNone := by
  intro r v now h
  have hmem : ("confirmed_ftx_at" : String) ∈ lbAttrNames := by decide
  constructor
  · simp [lbUpdate, List.foldl, hmem, setAttr]
  · simp [lbUpdate, List.foldl, hmem, setAttr, h]

/-- C4 witness: the amended statement on the fresh row. -/
theorem update_sets_phase_timestamps_witness :
    (lbUpdate lbFresh [("confirmed_ftx_at", Val.vInt 7)] 5) "confirmed_ftx_at"
        = Val.vInt 7 ∧
    (lbUpdate lbFresh [("confirmed_ftx_at", Val.vInt 7)] 5) "signed_acc_at"
        = Val.vNone :=
  update_sets_phase_timestamps_unconditionally lbFresh (Val.vInt 7) 5 (by decide)

/-! ### Claim C10 -/

/-- Reading back the attribute just set. -/
theorem setAttr_same : ∀ (r : Row) (k : String) (v : Val), setAttr r k v k = v := by
  intro r k v
  simp [setAttr]

/-- Setting one attribute leaves every other attribute unchanged. -/
theorem setAttr_other :
    ∀ (r : Row) (k : String) (v : Val) (q : String), q ≠ k →
      setAttr r k v q = r q := by
  intro r k v q h
  simp [setAttr, h]

/-- The update loop leaves attributes unchanged when their name is not
among the keyword arguments. -/
theorem update_foldl_not_mentioned :
    ∀ (kwargs : List (String × Val)) (r : Row) (key : String),
      key ∉ kwargs.map Prod.fst →
      (kwargs.foldl
        (fun acc kv =>
          if kv.fst ∈ lbAttrNames then setAttr acc kv.fst kv.snd else acc) r) key
        = r key := by
  intro kwargs
  induction kwargs with
  | nil => intro r key _; rfl
  | cons kv t ih =>
    intro r key h
    rw [List.map_cons, List.mem_cons] at h
    push_neg at h
    rw [List.foldl_cons, ih _ key h.2]
    by_cases hk : kv.fst ∈ lbAttrNames
    · rw [if_pos hk]
      exact setAttr_other r kv.fst kv.snd key h.1
    · rw [if_neg hk]

/-- The update loop leaves attributes unchanged when their name does not
exist on the instance, whatever the keyword arguments say. -/
theorem update_foldl_unknown :
    ∀ (kwargs : List (String × Val)) (r : Row) (key : String),
      key ∉ lbAttrNames →
      (kwargs.foldl
        (fun acc kv =>
          if kv.fst ∈ lbAttrNames then setAttr acc kv.fst kv.snd else acc) r) key
        = r key := by
  intro kwargs
  induction kwargs with
  | nil => intro r key _; rfl
  | cons kv t ih =>
    intro r key h
    rw [List.foldl_cons, ih _ key h]
    by_cases hk : kv.fst ∈ lbAttrNames
    · rw [if_pos hk]
      refine setAttr_other r kv.fst kv.snd key ?_
      intro he
      rw [he] at h
      exact h hk
    · rw [if_neg hk]

/-- C10: update touches only the attributes named by its keyword arguments
and existing on the instance — any attribute not mentioned keeps its prior
value, a key that names no existing attribute is silently ignored (the
attribute map is unchanged at it, so no new attribute is created and
nothing is raised: the function is total) — while updated_at is always
refreshed to the current time, even when no key matched. -/
theorem update_frame_and_updated_at :
    ∀ (r : Row) (kwargs : List (String × Val)) (now : Nat),
      (∀ key : String, key ∉ kwargs.map Prod.fst → key ≠ "updated_at" →
        lbUpdate r kwargs now key = r key) ∧
      (∀ key : String, key ∉ lbAttrNames →
        lbUpdate r kwargs now key = r key) ∧
      lbUpdate r kwargs now "updated_at" = Val.vInt (Int.ofNat now) := by
  intro r kwargs now
  refine ⟨?_, ?_, ?_⟩
  · intro key hk hu
    unfold lbUpdate
    rw [setAttr_other _ _ _ key hu]
    exact update_foldl_not_mentioned kwargs r key hk
  · intro key hk
    have hu : key ≠ "updated_at" := by
      intro he
      rw [he] at hk
      exact hk (by decide)
    unfold lbUpdate
    rw [setAttr_other _ _ _ key hu]
    exact update_foldl_unknown kwargs r key hk
  · unfold lbUpdate
    exact setAttr_same _ _ _

/-- The keyword arguments used to witness claim C10: one recognized key and
one unknown key. -/
def lbKwTest : List (String × Val) :=
  [("status", Val.vStr "offered"), ("no_such_column", Val.vInt 1)]

/-- C10 witness: on a concrete row and kwargs, an unmentioned attribute is
unchanged, the unknown key changes nothing, and updated_at is refreshed. -/
theorem update_frame_witness :
    lbUpdate lbFresh lbKwTest 9 "offered_at" = lbFresh "offered_at" ∧
    lbUpdate lbFresh lbKwTest 9 "no_such_column" = lbFresh "no_such_column" ∧
    lbUpdate lbFresh lbKwTest 9 "updated_at" = Val.vInt (Int.ofNat 9) :=
  ⟨(update_frame_and_updated_at lbFresh lbKwTest 9).1 "offered_at"
      (by decide) (by decide),
   (update_frame_and_updated_at lbFresh lbKwTest 9).2.1 "no_such_column"
      (by decide),
   (update_frame_and_updated_at lbFresh lbKwTest 9).2.2⟩
